import Mathlib

/-!
Verification of the `ruwm` water-meter controller core against its
natural-language specification.  The Rust sources are shallowly embedded:
machine integers become `Nat` with explicit reduction modulo `2 ^ 64`
where `u64` wrap-around matters, and the state-mutating task loops become
pure state-passing functions over the same data.
-/

/-- Modulus of the Rust `u64` machine integer. -/
def U64MOD : Nat := 2 ^ 64

/-! ## Water meter (`ruwm/src/water_meter.rs`) -/

/-- `WaterMeterState` from `water_meter.rs`: the committed meter status. -/
structure WaterMeterState where
  prev_edges_count : Nat
  prev_armed : Bool
  prev_leaking : Bool
  edges_count : Nat
  armed : Bool
  leaking : Bool
deriving DecidableEq, Repr

/-- The `Default` instance of `WaterMeterState` (all fields zero / false). -/
def wmInitialState : WaterMeterState :=
  { prev_edges_count := 0
    prev_armed := false
    prev_leaking := false
    edges_count := 0
    armed := false
    leaking := false }

/-- `WaterMeterCommand` from `water_meter.rs`. -/
inductive WaterMeterCommand where
  | Arm
  | Disarm
deriving DecidableEq, Repr

/-- The pulse-counting peripheral's data record (`get_data` / `swap_data`
payload from the external peripheral contract): an accumulated edge count
and the configured wake-on-edges threshold. -/
structure PulseCounterData where
  edges_count : Nat
  wakeup_edges : Nat
deriving DecidableEq, Repr

/-- The state-update closure of `run` in `water_meter.rs` (lines 120-130):
given the previous committed state and the peripheral data swapped out on
this pass, produce the new `WaterMeterState`.  Both the `u64` sum and the
comparison against it reduce modulo `2 ^ 64`, as the Rust `u64` addition
does. -/
def wmUpdateState (state : WaterMeterState) (data : PulseCounterData) : WaterMeterState :=
  { prev_edges_count := state.edges_count
    prev_armed := state.armed
    prev_leaking := state.leaking
    edges_count := (state.edges_count + data.edges_count) % U64MOD
    armed := decide (data.wakeup_edges > 0)
    leaking := decide (state.edges_count < (state.edges_count + data.edges_count) % U64MOD)
      && state.armed && decide (data.wakeup_edges > 0) }

/-- The command branch of the `select` in `run` (`water_meter.rs` lines
95-108): read the peripheral data, zero its edge accumulator, set the wake
threshold to 1 when arming (0 when disarming), swap the new record in and
obtain the previous record.  Result: (data now stored in the peripheral,
data returned by `swap_data`, i.e. the old record). -/
def wmCommandBranch (command : WaterMeterCommand) (periph : PulseCounterData) :
    PulseCounterData × PulseCounterData :=
  let data : PulseCounterData :=
    { edges_count := 0
      wakeup_edges := if command = WaterMeterCommand.Arm then 1 else 0 }
  (data, periph)

/-- The timeout branch of the `select` in `run` (`water_meter.rs` lines
109-115): zero only the edge accumulator, keep the wake threshold, swap,
obtain the previous record. -/
def wmTimeoutBranch (periph : PulseCounterData) :
    PulseCounterData × PulseCounterData :=
  ({ periph with edges_count := 0 }, periph)

/-- One full command-branch iteration of `run`: peripheral exchange
followed by the state update with the swapped-out old record.  Result:
(new peripheral contents, new committed `WaterMeterState`). -/
def wmCommandPass (command : WaterMeterCommand) (periph : PulseCounterData)
    (state : WaterMeterState) : PulseCounterData × WaterMeterState :=
  let r := wmCommandBranch command periph
  (r.1, wmUpdateState state r.2)

/-- One full timeout-branch iteration of `run`. -/
def wmTimeoutPass (periph : PulseCounterData) (state : WaterMeterState) :
    PulseCounterData × WaterMeterState :=
  let r := wmTimeoutBranch periph
  (r.1, wmUpdateState state r.2)

/-! ## Claims C2, C3, C5 -/

/-- Claim C2 as stated is false: an `Arm` pass does not commit a
`WaterMeterState` with `edges_count = 0`.  Concretely, with a prior state
holding `edges_count = 5` and an idle peripheral, the committed state
still has `edges_count = 5`. -/
theorem wmArm_counterexample :
    (wmCommandPass WaterMeterCommand.Arm ⟨0, 0⟩
        { wmInitialState with edges_count := 5 }).2.edges_count = 5 ∧
    ¬ (wmCommandPass WaterMeterCommand.Arm ⟨0, 0⟩
        { wmInitialState with edges_count := 5 }).2.edges_count = 0 := by
  decide

/-- Claim C2 (amended): an `Arm` pass resets the peripheral's edge
accumulator to zero (and sets its wake threshold to 1), while the
committed `WaterMeterState` keeps accumulating: its `edges_count` is the
prior count plus the swapped-out peripheral delta (mod `2 ^ 64`), not 0. -/
theorem wmArm_resets_peripheral_not_state (state : WaterMeterState)
    (periph : PulseCounterData) :
    (wmCommandPass WaterMeterCommand.Arm periph state).1.edges_count = 0 ∧
    (wmCommandPass WaterMeterCommand.Arm periph state).1.wakeup_edges = 1 ∧
    (wmCommandPass WaterMeterCommand.Arm periph state).2.edges_count
      = (state.edges_count + periph.edges_count) % U64MOD := by
  refine ⟨rfl, rfl, rfl⟩

/-- Claim C3 as stated is false: starting from the default meter state
(with the peripheral's wake threshold still at its default 0), an `Arm`
pass followed by a poll that swaps out 3 accumulated edges commits
`armed = true` but `leaking = false`, because the `armed` flag derives
from the swapped-out old wake threshold and hence lags one pass. -/
theorem wmArmScenario_counterexample :
    (wmTimeoutPass
        ⟨3, (wmCommandPass WaterMeterCommand.Arm ⟨0, 0⟩ wmInitialState).1.wakeup_edges⟩
        (wmCommandPass WaterMeterCommand.Arm ⟨0, 0⟩ wmInitialState).2).2.armed = true ∧
    (wmTimeoutPass
        ⟨3, (wmCommandPass WaterMeterCommand.Arm ⟨0, 0⟩ wmInitialState).1.wakeup_edges⟩
        (wmCommandPass WaterMeterCommand.Arm ⟨0, 0⟩ wmInitialState).2).2.leaking = false := by
  decide

/-- Claim C3 (amended): from the default meter state with an initially
unarmed peripheral (`wakeup_edges = 0`), receiving `Arm` and then polling
a peripheral that accumulated any number of edges commits a state with
`armed = true` and `leaking = false`: the pre-pass state committed by the
`Arm` pass still has `armed = false` (the swapped-out threshold was 0), so
the leak conjunction fails on that poll. -/
theorem wmArmScenario_amended (e0 e3 : Nat) :
    (wmTimeoutPass
        ⟨e3, (wmCommandPass WaterMeterCommand.Arm ⟨e0, 0⟩ wmInitialState).1.wakeup_edges⟩
        (wmCommandPass WaterMeterCommand.Arm ⟨e0, 0⟩ wmInitialState).2).2.armed = true ∧
    (wmTimeoutPass
        ⟨e3, (wmCommandPass WaterMeterCommand.Arm ⟨e0, 0⟩ wmInitialState).1.wakeup_edges⟩
        (wmCommandPass WaterMeterCommand.Arm ⟨e0, 0⟩ wmInitialState).2).2.leaking = false := by
  constructor
  · rfl
  · show (_ && (wmUpdateState wmInitialState ⟨e0, 0⟩).armed && _) = false
    show (_ && decide ((0 : Nat) > 0) && _) = false
    simp

/-- Claim C5: every `WaterMeterState` committed by the water-meter update
pass satisfies the invariant `leaking = true → armed = true`, since the
leak flag is conjoined with the same wake-threshold test that defines the
armed flag. -/
theorem wmUpdate_leaking_implies_armed (state : WaterMeterState)
    (data : PulseCounterData) :
    (wmUpdateState state data).leaking = true →
    (wmUpdateState state data).armed = true := by
  intro h
  have h' : (decide (state.edges_count < (state.edges_count + data.edges_count) % U64MOD)
      && state.armed && decide (data.wakeup_edges > 0)) = true := h
  simp only [Bool.and_eq_true] at h'
  exact h'.2

/-- Witness for C5 at a concrete leaking state: armed delta while armed
with threshold 1 commits `leaking = true`, and the theorem yields
`armed = true` there. -/
theorem wmUpdate_leaking_implies_armed_witness :
    (wmUpdateState { wmInitialState with armed := true } ⟨1, 1⟩).armed = true :=
  wmUpdate_leaking_implies_armed { wmInitialState with armed := true } ⟨1, 1⟩ (by decide)

/-! ## Water meter statistics (`ruwm/src/water_meter_stats.rs`)

Rust `Duration` values are embedded as `Nat` nanoseconds. -/

/-- Nanoseconds per second, for the `Duration` embedding. -/
def nsPerSec : Nat := 1000000000

/-- `Duration::as_secs` on the nanosecond embedding. -/
def durAsSecs (d : Nat) : Nat := d / nsPerSec

/-- `Duration::from_secs` on the nanosecond embedding. -/
def durFromSecs (s : Nat) : Nat := s * nsPerSec

/-- `FlowSnapshot` from `water_meter_stats.rs`: a point sample of time and
edge count. -/
structure FlowSnapshot where
  time : Nat
  edges_count : Nat
deriving DecidableEq, Repr

/-- `FlowSnapshot::statistics`: the `u64` subtraction
`current_edges_count - self.edges_count`, embedded with the wrap-around of
the Rust machine subtraction made explicit modulo `2 ^ 64`. -/
def FlowSnapshot.statistics (s : FlowSnapshot) (current_edges_count : Nat) : Nat :=
  (current_edges_count + U64MOD - s.edges_count % U64MOD) % U64MOD

/-- `FlowSnapshot::flow_detected`: more than one edge since the snapshot. -/
def FlowSnapshot.flow_detected (s : FlowSnapshot) (current_edges_count : Nat) : Bool :=
  decide (s.statistics current_edges_count > 1)

/-- `FlowSnapshot::is_nonaligned_measurement_due` (`water_meter_stats.rs`
lines 74-80): the elapsed time since `start_time` has reached the
duration. -/
def is_nonaligned_measurement_due (start_time current_time measurement_duration : Nat) : Bool :=
  decide (current_time - start_time ≥ measurement_duration)

/-- `FlowSnapshot::is_aligned_measurement_due` (`water_meter_stats.rs`
lines 82-92): the start time is first floored to a whole-second multiple
of the duration, then the non-aligned test is applied. -/
def is_aligned_measurement_due (start_time current_time measurement_duration : Nat) : Bool :=
  is_nonaligned_measurement_due
    (durFromSecs (durAsSecs start_time / durAsSecs measurement_duration
      * durAsSecs measurement_duration))
    current_time measurement_duration

/-- `FlowSnapshot::is_measurement_due`. -/
def FlowSnapshot.is_measurement_due (s : FlowSnapshot)
    (measurement_duration current_time : Nat) : Bool :=
  is_aligned_measurement_due s.time current_time measurement_duration

/-- `FlowMeasurement` from `water_meter_stats.rs`; the Rust field `end` is
named `stop` here because `end` is a Lean keyword. -/
structure FlowMeasurement where
  start : FlowSnapshot
  stop : FlowSnapshot
deriving DecidableEq, Repr

/-- The `DURATIONS` table of the eight statistics windows, in
nanoseconds: 5m, 30m, 1h, 6h, 12h, 24h, 7d, 30d. -/
def DURATIONS : List Nat :=
  [durFromSecs (60 * 5), durFromSecs (60 * 30), durFromSecs (60 * 60),
   durFromSecs (60 * 60 * 6), durFromSecs (60 * 60 * 12), durFromSecs (60 * 60 * 24),
   durFromSecs (60 * 60 * 24 * 7), durFromSecs (60 * 60 * 24 * 30)]

/-- `WaterMeterStatsState` from `water_meter_stats.rs`.  The fixed-size
arrays `[_; 8]` are embedded as lists (of length 8 in every reachable
state). -/
structure WaterMeterStatsState where
  installation : FlowSnapshot
  most_recent : FlowSnapshot
  snapshots : List FlowSnapshot
  measurements : List (Option FlowMeasurement)
deriving DecidableEq, Repr

/-- The per-window rotation loop of `WaterMeterStatsState::update`
(`water_meter_stats.rs` lines 134-141): for each window index, when the
window is due its snapshot is replaced by the (already updated) most
recent snapshot `mr` and the pair (previous snapshot, `mr`) is recorded
as that window's measurement.  Returns the new snapshots, the new
measurements and the `updated` flag contributed by the loop. -/
def rotateWindows (mr : FlowSnapshot) (now : Nat) :
    List FlowSnapshot → List Nat → List (Option FlowMeasurement) →
    List FlowSnapshot × List (Option FlowMeasurement) × Bool
  | snap :: snaps, d :: ds, m :: ms =>
    let r := rotateWindows mr now snaps ds ms
    if snap.is_measurement_due d now then
      (mr :: r.1, some ⟨snap, mr⟩ :: r.2.1, true)
    else
      (snap :: r.1, m :: r.2.1, r.2.2)
  | snaps, _, ms => (snaps, ms, false)

/-- `WaterMeterStatsState::update` (`water_meter_stats.rs` lines
126-145): build the new most-recent snapshot at `now` by adding the
supplied `edges_count` onto the running most-recent total (a `u64`
addition, reduced mod `2 ^ 64`), commit it when changed, then rotate every
due window against it.  Returns the new state and the `updated` flag. -/
def WaterMeterStatsState.update (s : WaterMeterStatsState) (edges_count now : Nat) :
    WaterMeterStatsState × Bool :=
  let mr : FlowSnapshot := ⟨now, (s.most_recent.edges_count + edges_count) % U64MOD⟩
  let updated := decide (s.most_recent ≠ mr)
  let s1 := if s.most_recent ≠ mr then { s with most_recent := mr } else s
  let r := rotateWindows s1.most_recent now s1.snapshots DURATIONS s1.measurements
  ({ s1 with snapshots := r.1, measurements := r.2.1 }, updated || r.2.2)

/-- The received-state branch of the `select` in `process`
(`water_meter_stats.rs` lines 203-219): the edges figure is the received
`WaterMeterState`'s count. -/
def statsReceivePass (s : WaterMeterStatsState) (wm : WaterMeterState) (now : Nat) :
    WaterMeterStatsState :=
  (s.update wm.edges_count now).1

/-- The timeout branch of the `select` in `process`
(`water_meter_stats.rs` lines 203-219): the edges figure is the last
recorded most-recent snapshot's count. -/
def statsTimeoutPass (s : WaterMeterStatsState) (now : Nat) : WaterMeterStatsState :=
  (s.update s.most_recent.edges_count now).1

/-! ## Claims C1, C4, C10 -/

/-- A concrete statistics state for the C1 counterexample: most recent
count 1, all windows freshly started at time 0. -/
def c1State : WaterMeterStatsState :=
  { installation := ⟨0, 0⟩
    most_recent := ⟨0, 1⟩
    snapshots := List.replicate 8 ⟨0, 0⟩
    measurements := List.replicate 8 none }

/-- Claim C1 as stated is false: on a timeout pass the committed
most-recent edges count does not stay equal to the pre-pass count.  With
a pre-pass count of 1 and a timeout pass one second later, the committed
count is 2. -/
theorem statsTimeout_counterexample :
    c1State.most_recent.edges_count = 1 ∧
    (statsTimeoutPass c1State (durFromSecs 1)).most_recent.edges_count = 2 ∧
    ¬ (statsTimeoutPass c1State (durFromSecs 1)).most_recent.edges_count
        = c1State.most_recent.edges_count := by
  decide

/-- Claim C1 (amended): on a timeout pass the edges figure fed into the
update is indeed the last most-recent snapshot's count, but since
`update` adds that figure as an absolute amount onto the running
most-recent total, the committed most-recent edges count equals twice the
pre-pass count (mod `2 ^ 64`), for every prior statistics state. -/
theorem statsTimeout_doubles (s : WaterMeterStatsState) (now : Nat) :
    (statsTimeoutPass s now).most_recent.edges_count
      = (s.most_recent.edges_count + s.most_recent.edges_count) % U64MOD := by
  unfold statsTimeoutPass WaterMeterStatsState.update
  dsimp only
  split
  · rfl
  · rename_i h
    simp only [ne_eq, not_not] at h
    exact congrArg FlowSnapshot.edges_count h

/-- Helper: `WaterMeterStatsState.update` always commits the new
most-recent snapshot built at `now`, and rotates the windows against it;
the `updated` flag only gates whether a downstream push would happen, not
the resulting value. -/
theorem statsUpdate_eq (s : WaterMeterStatsState) (edges now : Nat) :
    (s.update edges now).1 =
      { installation := s.installation
        most_recent := ⟨now, (s.most_recent.edges_count + edges) % U64MOD⟩
        snapshots :=
          (rotateWindows ⟨now, (s.most_recent.edges_count + edges) % U64MOD⟩ now
            s.snapshots DURATIONS s.measurements).1
        measurements :=
          (rotateWindows ⟨now, (s.most_recent.edges_count + edges) % U64MOD⟩ now
            s.snapshots DURATIONS s.measurements).2.1 } := by
  unfold WaterMeterStatsState.update
  dsimp only
  split
  · rfl
  · rename_i h
    rw [not_not] at h
    conv_lhs => rw [h]

/-- Helper: positionwise description of the window-rotation loop.  At
every index present in all three lists, the new snapshot is the most
recent snapshot exactly when the window was due (otherwise unchanged),
and the measurement slot records (old snapshot, most recent) exactly when
due (otherwise unchanged). -/
theorem rotateWindows_get (mr : FlowSnapshot) (now : Nat) :
    ∀ (snaps : List FlowSnapshot) (ds : List Nat) (ms : List (Option FlowMeasurement))
      (i : Nat) (snap : FlowSnapshot) (d : Nat) (m : Option FlowMeasurement),
      snaps.get? i = some snap → ds.get? i = some d → ms.get? i = some m →
      (rotateWindows mr now snaps ds ms).1.get? i
          = some (if snap.is_measurement_due d now then mr else snap) ∧
      (rotateWindows mr now snaps ds ms).2.1.get? i
          = some (if snap.is_measurement_due d now then some ⟨snap, mr⟩ else m) := by
  intro snaps
  induction snaps with
  | nil =>
    intro ds ms i snap d m h1 _ _
    simp at h1
  | cons s0 ss ih =>
    intro ds ms i snap d m h1 h2 h3
    match ds, ms with
    | [], _ =>
      simp at h2
    | _ :: _, [] =>
      simp at h3
    | d0 :: ds', m0 :: ms' =>
      cases i with
      | zero =>
        simp only [List.get?] at h1 h2 h3
        injection h1 with h1
        injection h2 with h2
        injection h3 with h3
        subst h1
        subst h2
        subst h3
        by_cases hdue : s0.is_measurement_due d0 now = true
        · simp [rotateWindows, hdue, List.get?]
        · simp [rotateWindows, hdue, List.get?]
      | succ n =>
        simp only [List.get?] at h1 h2 h3
        have hih := ih ds' ms' n snap d m h1 h2 h3
        by_cases hdue : s0.is_measurement_due d0 now = true
        · simpa [rotateWindows, hdue, List.get?] using hih
        · simpa [rotateWindows, hdue, List.get?] using hih

/-- A concrete statistics state for the C4 counterexample: every window
started at t = 100 s. -/
def c4State : WaterMeterStatsState :=
  { installation := ⟨0, 0⟩
    most_recent := ⟨durFromSecs 100, 0⟩
    snapshots := List.replicate 8 ⟨durFromSecs 100, 0⟩
    measurements := List.replicate 8 none }

/-- Claim C4 as stated is false: a measurement can be recorded before the
current time has reached any period boundary measured from the window's
own start.  With the 5-minute window started at t = 100 s, an update at
t = 300 s already records a measurement (300 s is a global multiple of the
duration) although 300 s < 100 s + 300 s, i.e. no boundary relative to the
window's start has been reached. -/
theorem statsAligned_counterexample :
    (statsTimeoutPass c4State (durFromSecs 300)).measurements.get? 0
      = some (some ⟨⟨durFromSecs 100, 0⟩, ⟨durFromSecs 300, 0⟩⟩) ∧
    durFromSecs 300 < durFromSecs 100 + durFromSecs 300 := by
  decide

/-- Claim C4 (amended): a window of whole-second duration `Ds` is due
exactly when the current time has reached the next multiple of `Ds` on
the global epoch-zero grid following the window's start (the start is
floored to the grid, so the boundary is epoch-aligned, not measured from
the window's own start); and when a window is due, the update pass
records (old snapshot, new most-recent) as its measurement and resets the
window's snapshot to the new most-recent snapshot taken at `now`, not to
the crossed boundary instant. -/
theorem statsAligned_amended :
    (∀ start current Ds : Nat, 0 < Ds →
      (is_aligned_measurement_due start current (durFromSecs Ds) = true ↔
        durFromSecs ((durAsSecs start / Ds + 1) * Ds) ≤ current)) ∧
    (∀ (s : WaterMeterStatsState) (edges now i : Nat) (snap : FlowSnapshot)
        (d : Nat) (m : Option FlowMeasurement),
      s.snapshots.get? i = some snap → DURATIONS.get? i = some d →
      s.measurements.get? i = some m →
      (s.update edges now).1.most_recent
          = ⟨now, (s.most_recent.edges_count + edges) % U64MOD⟩ ∧
      (s.update edges now).1.snapshots.get? i
          = some (if snap.is_measurement_due d now
              then (⟨now, (s.most_recent.edges_count + edges) % U64MOD⟩ : FlowSnapshot)
              else snap) ∧
      (s.update edges now).1.measurements.get? i
          = some (if snap.is_measurement_due d now
              then some ⟨snap, ⟨now, (s.most_recent.edges_count + edges) % U64MOD⟩⟩
              else m)) := by
  constructor
  · intro start current Ds hDs
    unfold is_aligned_measurement_due is_nonaligned_measurement_due
    have h1 : durAsSecs (durFromSecs Ds) = Ds := by
      unfold durAsSecs durFromSecs nsPerSec
      omega
    rw [h1]
    simp only [decide_eq_true_eq, ge_iff_le]
    unfold durFromSecs durAsSecs nsPerSec
    rw [Nat.add_mul, Nat.one_mul]
    generalize (start / 1000000000 / Ds * Ds) = q
    constructor <;> intro h <;> omega
  · intro s edges now i snap d m h1 h2 h3
    rw [statsUpdate_eq]
    exact ⟨rfl,
      (rotateWindows_get ⟨now, (s.most_recent.edges_count + edges) % U64MOD⟩ now
        s.snapshots DURATIONS s.measurements i snap d m h1 h2 h3).1,
      (rotateWindows_get ⟨now, (s.most_recent.edges_count + edges) % U64MOD⟩ now
        s.snapshots DURATIONS s.measurements i snap d m h1 h2 h3).2⟩

/-- Witness for the amended C4 boundary characterization at the concrete
counterexample window: start 100 s, duration 300 s, current time 300 s. -/
theorem statsAligned_amended_witness :
    (0 : Nat) < 300 ∧
    (is_aligned_measurement_due (durFromSecs 100) (durFromSecs 300) (durFromSecs 300) = true ↔
      durFromSecs ((durAsSecs (durFromSecs 100) / 300 + 1) * 300) ≤ durFromSecs 300) :=
  ⟨by decide,
   statsAligned_amended.1 (durFromSecs 100) (durFromSecs 300) 300 (by decide)⟩

/-- Claim C10: `FlowSnapshot::statistics` is the raw `u64` subtraction.
When the current count is at least the stored count it returns their
difference; when the current count is smaller it wraps around
`2 ^ 64` (underflow) instead of erroring or clamping to zero; and
`flow_detected` is exactly `statistics > 1` on top of it. -/
theorem statistics_underflow_spec :
    (∀ (s : FlowSnapshot) (c : Nat), s.edges_count ≤ c → c < U64MOD →
      s.statistics c = c - s.edges_count) ∧
    (∀ (s : FlowSnapshot) (c : Nat), c < s.edges_count → s.edges_count < U64MOD →
      s.statistics c = U64MOD - (s.edges_count - c)) ∧
    (∀ (s : FlowSnapshot) (c : Nat), s.flow_detected c = decide (s.statistics c > 1)) := by
  have hU : U64MOD = 18446744073709551616 := by norm_num [U64MOD]
  refine ⟨?_, ?_, ?_⟩
  · intro s c h1 h2
    unfold FlowSnapshot.statistics
    rw [hU] at h2 ⊢
    omega
  · intro s c h1 h2
    unfold FlowSnapshot.statistics
    rw [hU] at h2 ⊢
    omega
  · intro s c
    rfl

/-- Witness for C10 at concrete counts: a normal difference (5 - 3 = 2)
and an actual underflow (0 - 1 wraps to `2 ^ 64 - 1`). -/
theorem statistics_underflow_spec_witness :
    ((3 : Nat) ≤ 5 ∧ FlowSnapshot.statistics ⟨0, 3⟩ 5 = 5 - 3) ∧
    ((0 : Nat) < 1 ∧ FlowSnapshot.statistics ⟨0, 1⟩ 0 = U64MOD - (1 - 0)) :=
  ⟨⟨by decide, statistics_underflow_spec.1 ⟨0, 3⟩ 5 (by decide) (by decide)⟩,
   ⟨by decide, statistics_underflow_spec.2.1 ⟨0, 1⟩ 0 (by decide) (by decide)⟩⟩

/-! ## Screen controller (`ruwm/src/screen.rs`)

The `Action` enum and its set operations live in the (absent) `shapes`
module; the enum's five variants and the selection helpers are modelled
from the spec, while `Page`, `ScreenState` and the `process` dispatch are
embedded from `screen.rs`.  The globally active action set
(`Action::active()`) is an input of the embedding.  Everything lives in
the `Screen` namespace. -/

namespace Screen

/-- `Page` from `screen.rs`: the two display pages. -/
inductive Page where
  | Summary
  | Battery
deriving DecidableEq, Repr, Fintype

/-- `Page::prev` (`screen.rs` lines 48-53). -/
def Page.prev : Page → Page
  | Page.Summary => Page.Battery
  | Page.Battery => Page.Summary

/-- `Page::next` (`screen.rs` lines 55-60). -/
def Page.next : Page → Page
  | Page.Summary => Page.Battery
  | Page.Battery => Page.Summary

/-- Modelled from the spec: the `Action` enum of `screen/shapes.rs`
(not under `src/`), the five UI-triggerable commands. -/
inductive Action where
  | OpenValve
  | CloseValve
  | Arm
  | Disarm
  | Dismiss
deriving DecidableEq, Repr, Fintype

/-- An `EnumSet<Action>`: one membership flag per variant. -/
structure ActionSet where
  openValve : Bool
  closeValve : Bool
  arm : Bool
  disarm : Bool
  dismiss : Bool
deriving DecidableEq, Repr, Fintype

/-- Membership in an `ActionSet`. -/
def ActionSet.mem (s : ActionSet) : Action → Bool
  | Action.OpenValve => s.openValve
  | Action.CloseValve => s.closeValve
  | Action.Arm => s.arm
  | Action.Disarm => s.disarm
  | Action.Dismiss => s.dismiss

/-- `EnumSet::intersection`, pointwise. -/
def ActionSet.inter (s t : ActionSet) : ActionSet :=
  { openValve := s.openValve && t.openValve
    closeValve := s.closeValve && t.closeValve
    arm := s.arm && t.arm
    disarm := s.disarm && t.disarm
    dismiss := s.dismiss && t.dismiss }

/-- `EnumSet::is_empty`. -/
def ActionSet.isEmpty (s : ActionSet) : Bool :=
  !s.openValve && !s.closeValve && !s.arm && !s.disarm && !s.dismiss

/-- `EnumSet::empty()`. -/
def ActionSet.empty : ActionSet :=
  { openValve := false, closeValve := false, arm := false, disarm := false,
    dismiss := false }

/-- `actions |= Action::Dismiss`. -/
def ActionSet.insertDismiss (s : ActionSet) : ActionSet :=
  { s with dismiss := true }

/-- The page-eligible action sets from the `match` inside `Page::actions`
(`screen.rs` lines 63-66): Summary offers the four valve/meter commands,
Battery offers none. -/
def pageEligible : Page → ActionSet
  | Page.Summary =>
    { openValve := true, closeValve := true, arm := true, disarm := true,
      dismiss := false }
  | Page.Battery => ActionSet.empty

/-- `Page::actions` (`screen.rs` lines 62-76), with the globally active
set `Action::active()` supplied as the parameter `active`: intersect the
page's eligible actions with the active set, and append `Dismiss` exactly
when the intersection is non-empty. -/
def Page.actions (p : Page) (active : ActionSet) : ActionSet :=
  let actions := pageEligible p
  let actions := actions.inter active
  if actions.isEmpty then actions else actions.insertDismiss

/-- The fixed variant order of the `Action` enum, used by the selection
helpers. -/
def actionOrder : List Action :=
  [Action.OpenValve, Action.CloseValve, Action.Arm, Action.Disarm, Action.Dismiss]

/-- Modelled from the spec: `Action::first` of `screen/shapes.rs` (not
under `src/`): the first enabled action in variant order, if any. -/
def Action.first (s : ActionSet) : Option Action :=
  actionOrder.find? (fun a => s.mem a)

/-- Modelled from the spec: `Action::next` of `screen/shapes.rs` (not
under `src/`): the next enabled action after `a` in variant order;
`none` (closing the menu) when there is none. -/
def Action.nextSel (a : Action) (s : ActionSet) : Option Action :=
  ((actionOrder.dropWhile (fun b => b ≠ a)).drop 1).find? (fun b => s.mem b)

/-- Modelled from the spec: `Action::prev` of `screen/shapes.rs` (not
under `src/`): the previous enabled action before `a` in variant order;
`none` (closing the menu) when there is none. -/
def Action.prevSel (a : Action) (s : ActionSet) : Option Action :=
  ((actionOrder.takeWhile (fun b => b ≠ a)).reverse).find? (fun b => s.mem b)

/-- The `DataSource` changeset of `ScreenState`, one dirty flag per data
source (`screen.rs` lines 84-92). -/
structure Changeset where
  page : Bool
  valve : Bool
  wm : Bool
  wmStats : Bool
  battery : Bool
  remainingTime : Bool
deriving DecidableEq, Repr

/-- `changeset.insert(DataSource::Page)`. -/
def Changeset.insertPage (c : Changeset) : Changeset := { c with page := true }

/-- `changeset.insert(DataSource::Valve)`. -/
def Changeset.insertValve (c : Changeset) : Changeset := { c with valve := true }

/-- `changeset.insert(DataSource::WM)`. -/
def Changeset.insertWM (c : Changeset) : Changeset := { c with wm := true }

/-- `changeset.insert(DataSource::Battery)`. -/
def Changeset.insertBattery (c : Changeset) : Changeset := { c with battery := true }

/-- `changeset.insert(DataSource::RemainingTime)`. -/
def Changeset.insertRemainingTime (c : Changeset) : Changeset :=
  { c with remainingTime := true }

/-- `ScreenState` (`screen.rs` lines 94-99). -/
structure ScreenState where
  changeset : Changeset
  active_page : Page
  page_actions : Option (ActionSet × Action)
deriving DecidableEq, Repr

/-- `ScreenState::new()` (`screen.rs` lines 102-115): all six flags
dirty, Summary page, no menu. -/
def screenInitialState : ScreenState :=
  { changeset :=
      { page := true, valve := true, wm := true, wmStats := true,
        battery := true, remainingTime := true }
    active_page := Page.Summary
    page_actions := none }

/-- The seven wake sources of the `select_array` in `process`
(`screen.rs` lines 164-173), in index order. -/
inductive ScreenEvent where
  | button1
  | button2
  | button3
  | valveChanged
  | wmChanged
  | batteryChanged
  | remainingTimeChanged
deriving DecidableEq, Repr

/-- The dispatch of `process` (`screen.rs` lines 179-225) on one fired
wake source, acting on the screen state; the globally active action set
is the parameter `active`, and the side effect of `action.trigger()` is
external to the state. -/
def screenProcessEvent (active : ActionSet) (ev : ScreenEvent) (s : ScreenState) :
    ScreenState :=
  match ev with
  | ScreenEvent.button1 =>
    match s.page_actions with
    | some (actions, action) =>
      { s with
          page_actions := (action.prevSel actions).map (fun a => (actions, a))
          changeset := s.changeset.insertPage }
    | none =>
      { s with
          active_page := s.active_page.prev
          changeset := s.changeset.insertPage }
  | ScreenEvent.button2 =>
    match s.page_actions with
    | some (actions, action) =>
      { s with
          page_actions := (action.nextSel actions).map (fun a => (actions, a))
          changeset := s.changeset.insertPage }
    | none =>
      { s with
          active_page := s.active_page.next
          changeset := s.changeset.insertPage }
  | ScreenEvent.button3 =>
    match s.page_actions with
    | some _ =>
      { s with
          page_actions := none
          changeset := s.changeset.insertPage }
    | none =>
      { s with
          page_actions :=
            (Action.first (s.active_page.actions active)).map
              (fun a => (s.active_page.actions active, a))
          changeset := s.changeset.insertPage }
  | ScreenEvent.valveChanged => { s with changeset := s.changeset.insertValve }
  | ScreenEvent.wmChanged => { s with changeset := s.changeset.insertWM }
  | ScreenEvent.batteryChanged => { s with changeset := s.changeset.insertBattery }
  | ScreenEvent.remainingTimeChanged =>
    { s with changeset := s.changeset.insertRemainingTime }

/-- The fully active action set, for witnesses. -/
def allActive : ActionSet :=
  { openValve := true, closeValve := true, arm := true, disarm := true,
    dismiss := true }

end Screen

/-! ## Claims C7, C8 -/

namespace Screen

/-- Claim C7: with no menu open, a button-3 press computes the enabled
set as the active page's eligible actions intersected with the globally
active set with `Dismiss` appended exactly when that intersection is
non-empty, seeds the selection with the first enabled action, and on the
Battery page the resulting set is always empty so no non-empty menu ever
opens there. -/
theorem select_opens_menu (active : ActionSet) (s : ScreenState)
    (h : s.page_actions = none) :
    ((screenProcessEvent active ScreenEvent.button3 s).page_actions
        = (Action.first (s.active_page.actions active)).map
            (fun a => (s.active_page.actions active, a))) ∧
    (∀ a : Action, (s.active_page.actions active).mem a
        = (((pageEligible s.active_page).mem a && active.mem a)
            || (decide (a = Action.Dismiss)
                && !((pageEligible s.active_page).inter active).isEmpty))) ∧
    (s.active_page = Page.Battery →
      (screenProcessEvent active ScreenEvent.button3 s).page_actions = none) := by
  obtain ⟨cs, p, pa⟩ := s
  dsimp only at h
  subst h
  cases p
  · refine ⟨rfl, ?_, ?_⟩
    · dsimp only
      revert active
      decide
    · dsimp only
      intro hp
      exact absurd hp (by decide)
  · refine ⟨rfl, ?_, ?_⟩
    · dsimp only
      revert active
      decide
    · intro _
      dsimp only [screenProcessEvent]
      revert active
      decide

/-- Witness for C7 at the initial screen state (Summary page, no menu)
with every action globally active. -/
theorem select_opens_menu_witness :
    (screenInitialState.page_actions = none) ∧
    (((screenProcessEvent allActive ScreenEvent.button3 screenInitialState).page_actions
        = (Action.first (screenInitialState.active_page.actions allActive)).map
            (fun a => (screenInitialState.active_page.actions allActive, a))) ∧
    (∀ a : Action, (screenInitialState.active_page.actions allActive).mem a
        = (((pageEligible screenInitialState.active_page).mem a && allActive.mem a)
            || (decide (a = Action.Dismiss)
                && !((pageEligible screenInitialState.active_page).inter
                      allActive).isEmpty))) ∧
    (screenInitialState.active_page = Page.Battery →
      (screenProcessEvent allActive ScreenEvent.button3
          screenInitialState).page_actions = none)) :=
  ⟨rfl, select_opens_menu allActive screenInitialState rfl⟩

/-- Claim C8: with no menu open, button-1 ("prev") and button-2 ("next")
each map Summary to Battery and Battery to Summary, so in both directions
the page strictly toggles between exactly those two pages, and applying
either press twice returns to the starting page. -/
theorem prev_next_toggle (active : ActionSet) (s : ScreenState)
    (h : s.page_actions = none) :
    ((screenProcessEvent active ScreenEvent.button1 s).active_page
        = (match s.active_page with
           | Page.Summary => Page.Battery
           | Page.Battery => Page.Summary)) ∧
    ((screenProcessEvent active ScreenEvent.button2 s).active_page
        = (match s.active_page with
           | Page.Summary => Page.Battery
           | Page.Battery => Page.Summary)) ∧
    ((screenProcessEvent active ScreenEvent.button1
        (screenProcessEvent active ScreenEvent.button1 s)).active_page
        = s.active_page) ∧
    ((screenProcessEvent active ScreenEvent.button2
        (screenProcessEvent active ScreenEvent.button2 s)).active_page
        = s.active_page) := by
  obtain ⟨cs, p, pa⟩ := s
  dsimp only at h
  subst h
  cases p
  · exact ⟨rfl, rfl, rfl, rfl⟩
  · exact ⟨rfl, rfl, rfl, rfl⟩

/-- Witness for C8 at the initial screen state with every action
globally active. -/
theorem prev_next_toggle_witness :
    (screenInitialState.page_actions = none) ∧
    (((screenProcessEvent allActive ScreenEvent.button1
          screenInitialState).active_page
        = (match screenInitialState.active_page with
           | Page.Summary => Page.Battery
           | Page.Battery => Page.Summary)) ∧
    ((screenProcessEvent allActive ScreenEvent.button2
          screenInitialState).active_page
        = (match screenInitialState.active_page with
           | Page.Summary => Page.Battery
           | Page.Battery => Page.Summary)) ∧
    ((screenProcessEvent allActive ScreenEvent.button1
        (screenProcessEvent allActive ScreenEvent.button1
          screenInitialState)).active_page
        = screenInitialState.active_page) ∧
    ((screenProcessEvent allActive ScreenEvent.button2
        (screenProcessEvent allActive ScreenEvent.button2
          screenInitialState)).active_page
        = screenInitialState.active_page)) :=
  ⟨rfl, prev_next_toggle allActive screenInitialState rfl⟩

end Screen

/-! ## Composition root (`ruwm-esp32/src/main.rs`)

The straight-line effect order of `run` is embedded as an event trace;
`valve::start_spin` and the turn delay live in `ruwm/src/valve.rs`, which
is not under `src/`, and are modelled from the spec. -/

/-- `ValveCommand` from `ruwm::valve`. -/
inductive ValveCommand where
  | Open
  | Close
deriving DecidableEq, Repr

/-- The three valve actuator output lines (power-enable, open-direction,
close-direction). -/
structure ValvePins where
  powerPin : Bool
  openPin : Bool
  closePin : Bool
deriving DecidableEq, Repr

/-- Modelled from the spec: `valve::start_spin` (`ruwm/src/valve.rs` is
not under `src/`), the shared spin primitive of both the async valve task
and the emergency path.  `Some(Open)` drives power and open high,
`Some(Close)` drives power and close high, `None` clears all three lines
(unconditional stop). -/
def start_spin : Option ValveCommand → ValvePins
  | some ValveCommand.Open => { powerPin := true, openPin := true, closePin := false }
  | some ValveCommand.Close => { powerPin := true, openPin := false, closePin := true }
  | none => { powerPin := false, openPin := false, closePin := false }

/-- The tasks spawned by `run` in `main.rs`, in source order names. -/
inductive TaskName where
  | valve
  | valveSpin
  | wm
  | wmStats
  | battery
  | button1
  | button2
  | button3
  | emergency
  | keepalive
  | screenDraw
  | screen
  | mqttSend
  | mqttReceive
  | webSend
  | webReceive
  | wifi
deriving DecidableEq, Repr

/-- The three executors (scheduling domains) of `run` in `main.rs`:
`executor1` is the local (calling-thread) domain, `executor2` and
`executor3` are the two sendable domains. -/
inductive ExecutorId where
  | executor1
  | executor2
  | executor3
deriving DecidableEq, Repr

/-- The observable effects of `run` in `main.rs` that the claims are
about: driving the valve pins through `start_spin`, sleeping for the
fixed valve turn delay, constructing the reactive `System`, and spawning
a task into an executor's registry. -/
inductive MainEvent where
  | setPins (pins : ValvePins)
  | sleepTurnDelay
  | initSystem
  | spawnTask (e : ExecutorId) (t : TaskName)
deriving DecidableEq, Repr

/-- `SleepWakeupReason` from `main.rs`. -/
inductive SleepWakeupReason where
  | Unknown
  | ULP
  | Button
  | Timer
  | Other (code : Nat)
deriving DecidableEq, Repr

/-- `emergency_valve_close` (`main.rs` lines 339-353): spin towards
`Close`, sleep for the fixed turn delay (`valve::VALVE_TURN_DELAY`,
modelled from the spec), then spin with `None` (unconditional stop), all
through the shared `start_spin` primitive. -/
def emergencyValveCloseTrace : List MainEvent :=
  [MainEvent.setPins (start_spin (some ValveCommand.Close)),
   MainEvent.sleepTurnDelay,
   MainEvent.setPins (start_spin none)]

/-- The task-spawn order of `run` (`main.rs` lines 178-290). -/
def spawnTrace : List MainEvent :=
  [MainEvent.spawnTask ExecutorId.executor1 TaskName.valve,
   MainEvent.spawnTask ExecutorId.executor1 TaskName.valveSpin,
   MainEvent.spawnTask ExecutorId.executor1 TaskName.wm,
   MainEvent.spawnTask ExecutorId.executor2 TaskName.wmStats,
   MainEvent.spawnTask ExecutorId.executor2 TaskName.battery,
   MainEvent.spawnTask ExecutorId.executor1 TaskName.button1,
   MainEvent.spawnTask ExecutorId.executor2 TaskName.button2,
   MainEvent.spawnTask ExecutorId.executor1 TaskName.button3,
   MainEvent.spawnTask ExecutorId.executor2 TaskName.emergency,
   MainEvent.spawnTask ExecutorId.executor2 TaskName.keepalive,
   MainEvent.spawnTask ExecutorId.executor2 TaskName.screenDraw,
   MainEvent.spawnTask ExecutorId.executor2 TaskName.screen,
   MainEvent.spawnTask ExecutorId.executor3 TaskName.mqttSend,
   MainEvent.spawnTask ExecutorId.executor3 TaskName.mqttReceive,
   MainEvent.spawnTask ExecutorId.executor3 TaskName.webSend,
   MainEvent.spawnTask ExecutorId.executor3 TaskName.webReceive,
   MainEvent.spawnTask ExecutorId.executor3 TaskName.wifi]

/-- The effect trace of `run` (`main.rs` lines 99-320): the emergency
valve close happens first and only on an ULP wakeup (lines 106-112),
then the reactive `System` is constructed (line 120) and all tasks are
spawned. -/
def runTrace (reason : SleepWakeupReason) : List MainEvent :=
  (if reason = SleepWakeupReason.ULP then emergencyValveCloseTrace else [])
    ++ [MainEvent.initSystem] ++ spawnTrace

/-- Events that construct reactive components or spawn tasks. -/
def MainEvent.isReactiveSetup : MainEvent → Bool
  | MainEvent.initSystem => true
  | MainEvent.spawnTask _ _ => true
  | _ => false

/-! ## Claims C6, C9 -/

/-- Claim C6: on an ULP (autonomous leak-detection) wakeup, before any
reactive component is constructed or any task is spawned, the valve is
driven synchronously through the shared `start_spin` primitive: first
with `Close` (power and close-direction high), then after the fixed
turn delay with `None` (all lines low, unconditional stop); on a
non-ULP wakeup nothing precedes the reactive setup. -/
theorem emergency_close_before_reactive :
    ((runTrace SleepWakeupReason.ULP).takeWhile (fun e => !e.isReactiveSetup)
      = [MainEvent.setPins (start_spin (some ValveCommand.Close)),
         MainEvent.sleepTurnDelay,
         MainEvent.setPins (start_spin none)]) ∧
    start_spin (some ValveCommand.Close)
      = { powerPin := true, openPin := false, closePin := true } ∧
    start_spin none = { powerPin := false, openPin := false, closePin := false } ∧
    ((runTrace SleepWakeupReason.Timer).takeWhile (fun e => !e.isReactiveSetup)
      = []) := by
  decide

/-- The error raised when a bounded startup task registry is full
(`error::heapless` wrapping the failed `heapless::Vec::push`). -/
inductive SpawnError where
  | capacityExceeded
deriving DecidableEq, Repr

/-- The fixed capacity of each per-domain task registry
(`heapless::Vec<Task<_>, 64>` in `main.rs` lines 168-170). -/
def REGISTRY_CAPACITY : Nat := 64

/-- Registering a spawned task into a bounded registry (`.push(...)
.map_err(error::heapless)` in `run`): the push succeeds only below the
fixed capacity and otherwise fails with the capacity-exceeded error. -/
def registryPush (tasks : List TaskName) (t : TaskName) :
    Except SpawnError (List TaskName) :=
  if tasks.length < REGISTRY_CAPACITY then Except.ok (tasks ++ [t])
  else Except.error SpawnError.capacityExceeded

/-- Claim C9: registering a task into a per-domain registry that already
holds its fixed capacity (64) of tasks fails with the explicit
capacity-exceeded error at registration time; a successful registration
grows the registry by exactly one and never beyond the capacity. -/
theorem registryPush_capacity (tasks : List TaskName) (t : TaskName) :
    (REGISTRY_CAPACITY ≤ tasks.length →
      registryPush tasks t = Except.error SpawnError.capacityExceeded) ∧
    (∀ ts, registryPush tasks t = Except.ok ts →
      ts.length = tasks.length + 1 ∧ ts.length ≤ REGISTRY_CAPACITY) := by
  constructor
  · intro h
    unfold REGISTRY_CAPACITY at h
    unfold registryPush REGISTRY_CAPACITY
    rw [if_neg (by omega)]
  · intro ts hts
    unfold registryPush at hts
    by_cases hlt : tasks.length < REGISTRY_CAPACITY
    · rw [if_pos hlt] at hts
      injection hts with hts
      subst hts
      unfold REGISTRY_CAPACITY at hlt ⊢
      refine ⟨by simp, ?_⟩
      simp only [List.length_append, List.length_cons, List.length_nil]
      omega
    · rw [if_neg hlt] at hts
      exact Except.noConfusion hts

/-- Witness for C9 at a registry already holding 64 tasks. -/
theorem registryPush_capacity_witness :
    REGISTRY_CAPACITY ≤ (List.replicate 64 TaskName.valve).length ∧
    registryPush (List.replicate 64 TaskName.valve) TaskName.valve
      = Except.error SpawnError.capacityExceeded :=
  ⟨by decide,
   (registryPush_capacity (List.replicate 64 TaskName.valve) TaskName.valve).1
     (by decide)⟩
